import Mathlib

set_option maxRecDepth 2000

/-!
Shallow embedding of the viewport/tile-streaming controller of
`src/src/components/JuliaSetGenerator.tsx` (the tiled variant, the first
component in that file).  JavaScript numbers are modelled as rationals
(the claims under study are stated in exact real arithmetic);
`Math.floor` and `Math.ceil` become `Rat.floor` / `Rat.ceil`.
The React state (`params`, `tiles`) and the mutable refs
(`offsetRef`, `wsRef.readyState`) are collected into one explicit
`AppState`; event handlers become pure state transformers that also
return the list of WebSocket messages they send.
-/

namespace Fractale

/-- Type `Complex` from `src/src/types/types.ts`: a point of the plane. -/
structure Complex where
  real : ℚ
  imag : ℚ
deriving DecidableEq, Repr, Inhabited

/-- Type `FractalParams` from `src/src/types/types.ts`. -/
structure FractalParams where
  width : ℚ
  height : ℚ
  c : Complex
  zoom : ℚ
  center : Complex
  maxIterations : ℚ
  coloring : ℚ
  lod : ℚ
deriving DecidableEq, Repr, Inhabited

/-- Type `Tile` from `src/src/types/types.ts`; the `HTMLImageElement` is kept
abstractly as the base64 payload string it was decoded from. -/
structure Tile where
  x : ℤ
  y : ℤ
  lod : ℤ
  image : String
deriving DecidableEq, Repr, Inhabited

/-- The `tiles` React state, `Record<string, Tile>`: an association list
keyed by strings, in insertion order, with at most one entry per key. -/
abbrev TileRecord := List (String × Tile)

/-- JavaScript `obj[k]` truthiness test on the tiles record. -/
def recordHas (m : TileRecord) (k : String) : Bool :=
  m.any (fun p => p.1 = k)

/-- JavaScript `{ ...prev, [k]: v }`: replaces the value at an existing
key in place, otherwise appends the new key (preserving insertion order). -/
def recordSet (m : TileRecord) (k : String) (v : Tile) : TileRecord :=
  if recordHas m k then m.map (fun p => if p.1 = k then (k, v) else p)
  else m ++ [(k, v)]

/-- JavaScript `obj[k]` lookup on the tiles record. -/
def recordGet (m : TileRecord) (k : String) : Option Tile :=
  (m.find? (fun p => p.1 = k)).map (fun p => p.2)

/-- Constant `const TILE_SIZE = 128` (JuliaSetGenerator.tsx line 23). -/
def TILE_SIZE : ℚ := 128

/-- The whole component state: the `params` React state, the `tiles`
React state, the `offsetRef` mutable ref, and whether
`wsRef.current` is non-null with `readyState === WebSocket.OPEN`. -/
structure AppState where
  params : FractalParams
  tiles : TileRecord
  offset : ℚ × ℚ
  wsOpen : Bool
deriving DecidableEq, Repr, Inhabited

/-- One outbound WebSocket message, as built in `requestNewTiles`:
`JSON.stringify({ params: {...params, lod}, tiles, offset })`. -/
structure OutMsg where
  params : FractalParams
  tiles : List String
  offset : ℚ × ℚ
deriving DecidableEq, Repr, Inhabited

/-- The template string `` `${a},${b}` `` pushed by `getVisibleTiles`
and used for the cache keys. -/
def tileKey (a b : ℤ) : String :=
  toString a ++ "," ++ toString b

/-- Function `getVisibleTiles` (JuliaSetGenerator.tsx lines 163-175): iterates a
grid of `tilesY` rows by `tilesX` columns starting at
`(startX, startY)` and pushes, for each grid cell `(x, y)`, the string
`` `${x * TILE_SIZE},${y * TILE_SIZE}` ``.  It reads only
`params.width`, `params.height` and `offsetRef.current`. -/
def getVisibleTiles (p : FractalParams) (ox oy : ℚ) : List String :=
  let tilesX : ℤ := Rat.ceil (p.width / TILE_SIZE) + 1
  let tilesY : ℤ := Rat.ceil (p.height / TILE_SIZE) + 1
  let startX : ℤ := Rat.floor (-ox / TILE_SIZE) - 1
  let startY : ℤ := Rat.floor (-oy / TILE_SIZE) - 1
  (List.range tilesY.toNat).flatMap (fun j =>
    (List.range tilesX.toNat).map (fun i =>
      tileKey ((startX + (i : ℤ)) * 128) ((startY + (j : ℤ)) * 128)))

/-- Function `requestNewTiles` (JuliaSetGenerator.tsx lines 138-161), with each
send annotated by the delay (in ms) after which it is dispatched: the
lod-4 message is sent synchronously (delay 0) and the lod-1 message is
scheduled by `setTimeout(..., 100)`.  The coarse message carries
`newTiles` (the visible keys whose `` `${tile},1` `` cache entry is
falsy); the fine message carries the unfiltered `visibleTiles`.
Nothing is sent when the socket is not open. -/
def requestNewTilesTimed (st : AppState) : List (ℚ × OutMsg) :=
  if st.wsOpen then
    let visibleTiles := getVisibleTiles st.params st.offset.1 st.offset.2
    let newTiles := visibleTiles.filter (fun t => !(recordHas st.tiles (t ++ ",1")))
    [(0, { params := { st.params with lod := 4 }, tiles := newTiles, offset := st.offset }),
     (100, { params := { st.params with lod := 1 }, tiles := visibleTiles, offset := st.offset })]
  else []

/-- The messages `requestNewTiles` sends, in dispatch order. -/
def requestNewTiles (st : AppState) : List OutMsg :=
  (requestNewTilesTimed st).map (fun e => e.2)

/-- Expression `e.deltaY > 0 ? 0.9 : 1.1` (JuliaSetGenerator.tsx line 263). -/
def wheelZoomFactor (deltaY : ℚ) : ℚ :=
  if deltaY > 0 then 9/10 else 11/10

/-- The `setParams` updater of `handleWheel` (JuliaSetGenerator.tsx
lines 264-284): compute the plane point under the cursor, scale the
zoom, and recenter so that point stays under the cursor.  `mouseX` and
`mouseY` are the canvas-relative cursor coordinates. -/
def handleWheelParams (deltaY mouseX mouseY : ℚ) (prev : FractalParams) : FractalParams :=
  let zoomFactor := wheelZoomFactor deltaY
  let centerX := prev.center.real + (mouseX - prev.width / 2) / prev.zoom
  let centerY := prev.center.imag + (mouseY - prev.height / 2) / prev.zoom
  let newZoom := prev.zoom * zoomFactor
  { prev with
    zoom := newZoom
    center := { real := centerX + (prev.center.real - centerX) / zoomFactor,
                imag := centerY + (prev.center.imag - centerY) / zoomFactor } }

/-- Handler `handleWheel` (JuliaSetGenerator.tsx lines 261-293) at the
state level: update `params`, then (in the scheduled animation frame)
call `requestNewTiles`. -/
def handleWheel (deltaY mouseX mouseY : ℚ) (st : AppState) : AppState × List OutMsg :=
  let st' := { st with params := handleWheelParams deltaY mouseX mouseY st.params }
  (st', requestNewTiles st')

/-- The spec's coordinate transform, stated in its own words:
`pixelToPlane(v, x, y) = (v.center.real + (x - v.width/2)/v.zoom,
v.center.imag + (y - v.height/2)/v.zoom)`.  This is also precisely the
`centerX`/`centerY` computation inside `handleWheel`. -/
def pixelToPlane (p : FractalParams) (x y : ℚ) : Complex :=
  { real := p.center.real + (x - p.width / 2) / p.zoom,
    imag := p.center.imag + (y - p.height / 2) / p.zoom }

/-- Handler `handleMouseMove` while dragging (JuliaSetGenerator.tsx lines
218-255): accumulate the pointer delta into the offset; when the
accumulated offset reaches a whole tile in either axis, convert whole
tiles into a center shift with `Math.floor(offset / TILE_SIZE)`, retain
the sub-tile remainder, and call `requestNewTiles`. -/
def handleMouseMove (dx dy : ℚ) (st : AppState) : AppState × List OutMsg :=
  let ox := st.offset.1 + dx
  let oy := st.offset.2 + dy
  if 128 ≤ |ox| ∨ 128 ≤ |oy| then
    let tileOffsetX : ℤ := Rat.floor (ox / TILE_SIZE)
    let tileOffsetY : ℤ := Rat.floor (oy / TILE_SIZE)
    let p := st.params
    let p' := { p with
      center := { real := p.center.real - ((tileOffsetX : ℚ) * TILE_SIZE) / p.zoom,
                  imag := p.center.imag - ((tileOffsetY : ℚ) * TILE_SIZE) / p.zoom } }
    let st' := { st with
      params := p',
      offset := (ox - (tileOffsetX : ℚ) * TILE_SIZE, oy - (tileOffsetY : ℚ) * TILE_SIZE) }
    (st', requestNewTiles st')
  else
    ({ st with offset := (ox, oy) }, [])

/-- Spread update `{ ...prev[parent], [child]: value }` for the two nested complex
fields accepted by `handleInputChange`. -/
def setComplexField (c : Complex) (child : String) (v : ℚ) : Complex :=
  if child = "real" then { c with real := v }
  else if child = "imag" then { c with imag := v }
  else c

/-- Assignment `prev[name] = value` for the scalar fields of
`FractalParams`.  Assigning a number over the object-valued keys `c` or
`center` (possible in the untyped source, never produced by the UI) is
outside this typed model and leaves the record unchanged. -/
def setScalarField (p : FractalParams) (name : String) (v : ℚ) : FractalParams :=
  if name = "width" then { p with width := v }
  else if name = "height" then { p with height := v }
  else if name = "zoom" then { p with zoom := v }
  else if name = "maxIterations" then { p with maxIterations := v }
  else if name = "coloring" then { p with coloring := v }
  else if name = "lod" then { p with lod := v }
  else p

/-- JavaScript `name in prev` for a `FractalParams` object. -/
def paramsHasKey (name : String) : Bool :=
  name = "width" || name = "height" || name = "c" || name = "zoom" ||
  name = "center" || name = "maxIterations" || name = "coloring" || name = "lod"

/-- The `setParams` updater of `handleInputChange` (JuliaSetGenerator.tsx
lines 177-204): dotted names update a nested field of `c` or `center`,
bare names that are keys of the record update that field, anything else
returns `prev` unchanged. -/
def handleInputChangeParams (name : String) (v : ℚ) (prev : FractalParams) : FractalParams :=
  if name.contains (Char.ofNat 46) then
    let parts := name.splitOn "."
    let parent := parts.headD ""
    let child := (parts.drop 1).headD ""
    if parent = "c" then { prev with c := setComplexField prev.c child v }
    else if parent = "center" then { prev with center := setComplexField prev.center child v }
    else prev
  else if paramsHasKey name then setScalarField prev name v
  else prev

/-- Handler `handleInputChange` at the state level: the handler only calls
`setParams`; it touches neither the `tiles` state, nor the offset, nor
the socket. -/
def handleInputChange (name : String) (v : ℚ) (st : AppState) : AppState :=
  { st with params := handleInputChangeParams name v st.params }

/-- An inbound WebSocket message as seen by `wsRef.current.onmessage`
(JuliaSetGenerator.tsx lines 53-70), after the JavaScript
`JSON.parse(event.data)` boundary: either the payload parses to an
object whose `type` field is `"tile"` (carrying `x`, `y`, `lod` and a
base64 `image`), or it parses to some other JSON value, or
`JSON.parse` fails on it. -/
inductive InMsg where
  | tile (x y lod : ℤ) (image : String)
  | otherJson
  | malformed
deriving DecidableEq, Repr

/-- The cache key `` `${data.x},${data.y},${data.lod}` `` under which a
received tile is stored. -/
def tileRecordKey (x y lod : ℤ) : String :=
  toString x ++ "," ++ toString y ++ "," ++ toString lod

/-- The `onmessage` handler: `JSON.parse` throws on a malformed payload
(there is no try/catch around it, so the exception propagates out of
the handler — modelled as `Except.error`); parsed messages whose `type`
is not `"tile"` are silently ignored; tile messages are inserted into
the `tiles` record (assuming the decoded image loads).  No branch
touches `params`, the offset, or the socket. -/
def onMessage (msg : InMsg) (st : AppState) : Except String AppState :=
  match msg with
  | InMsg.malformed => Except.error "SyntaxError: Unexpected token in JSON"
  | InMsg.otherJson => Except.ok st
  | InMsg.tile x y lod image =>
      Except.ok { st with
        tiles := recordSet st.tiles (tileRecordKey x y lod) (Tile.mk x y lod image) }

/-- Delay of `setTimeout(connectWebSocket, 1000)` in `wsRef.current.onclose`
(JuliaSetGenerator.tsx lines 76-80). -/
def RECONNECT_DELAY_MS : ℚ := 1000

/-- What the `onclose` handler does: null out the socket ref and
schedule a reconnect attempt after the fixed delay. -/
structure CloseAction where
  clearSocket : Bool
  reconnectDelay : ℚ
deriving DecidableEq, Repr

/-- Handler `wsRef.current.onclose` (JuliaSetGenerator.tsx lines 76-80). -/
def onClose : CloseAction :=
  { clearSocket := true, reconnectDelay := RECONNECT_DELAY_MS }

/-- Handler `wsRef.current.onopen` (JuliaSetGenerator.tsx lines 49-51):
once the socket reopens, `requestNewTiles()` runs.  `connectWebSocket`
is a `useCallback` with an empty dependency array (line 81), so the
`requestNewTiles` it invokes is the closure from the render that
created it: that closure captured that render's `params` React state
(`capturedParams`) and `tiles` React state (`capturedTiles`) — for the
socket installed on mount, the initial params and the empty record —
while `offsetRef` and `wsRef` are refs and are read live from `st`.
The current render's `params`/`tiles` are NOT consulted. -/
def onOpen (capturedParams : FractalParams) (capturedTiles : TileRecord)
    (st : AppState) : List OutMsg :=
  requestNewTiles
    { params := capturedParams, tiles := capturedTiles,
      offset := st.offset, wsOpen := st.wsOpen }

/-- The initial `params` state (JuliaSetGenerator.tsx lines 26-35); the
`coloring` field is randomized in 1..12 by the source and fixed to 1
here. -/
def params0 : FractalParams :=
  { width := 1200, height := 600, c := { real := -7/10, imag := 5403/20000 },
    zoom := 250, center := { real := 0, imag := 0 },
    maxIterations := 200, coloring := 1, lod := 1 }

/-- The component state right after the initial connect succeeds. -/
def st0 : AppState :=
  { params := params0, tiles := [], offset := (0, 0), wsOpen := true }

/-- A 1-by-1-pixel viewport, small enough that only a 2 by 2 tile grid
is visible; used for concrete evaluations. -/
def pTiny : FractalParams :=
  { width := 1, height := 1, c := { real := -7/10, imag := 5403/20000 },
    zoom := 250, center := { real := 0, imag := 0 },
    maxIterations := 200, coloring := 1, lod := 1 }

/-- A placeholder received tile. -/
def dummyTile (x y lod : ℤ) : Tile :=
  { x := x, y := y, lod := lod, image := "iVBOR" }

/-- Open connection over the tiny viewport, empty cache. -/
def stTinyEmpty : AppState :=
  { params := pTiny, tiles := [], offset := (0, 0), wsOpen := true }

/-- Open connection over the tiny viewport with every visible tile
already cached at lod 1. -/
def stAllCached : AppState :=
  { params := pTiny,
    tiles := [("-128,-128,1", dummyTile (-128) (-128) 1),
              ("0,-128,1", dummyTile 0 (-128) 1),
              ("-128,0,1", dummyTile (-128) 0 1),
              ("0,0,1", dummyTile 0 0 1)],
    offset := (0, 0), wsOpen := true }

/-- Open connection with one tile cached at lod 1 under key "0,0,1". -/
def stCached : AppState :=
  { params := params0, tiles := [("0,0,1", dummyTile 0 0 1)], offset := (0, 0), wsOpen := true }

/-- A drop-time state over the tiny viewport whose params have moved on
since mount: the zoom was changed from 250 to 500 before the transport
dropped. -/
def stDrop : AppState :=
  { params := { pTiny with zoom := 500 }, tiles := [], offset := (0, 0), wsOpen := true }

/-- Same width/height (and hence the same visible tiles) as `pTiny`, but
every viewport/fractal field differs. -/
def pAlt : FractalParams :=
  { width := 1, height := 1, c := { real := 2, imag := -3 },
    zoom := 99999, center := { real := 5, imag := -5 },
    maxIterations := 7, coloring := 12, lod := 4 }

/-- The visible-tile key list of the tiny viewport at offset (0,0). -/
def visibleTiny : List String :=
  ["-128,-128", "0,-128", "-128,0", "0,0"]

/-- The coarse (lod 4) message `requestNewTiles` sends from `stTinyEmpty`. -/
def coarseTinyMsg : OutMsg :=
  { params := { pTiny with lod := 4 }, tiles := visibleTiny, offset := (0, 0) }

/-- The fine (lod 1) message `requestNewTiles` sends from `stTinyEmpty`. -/
def fineTinyMsg : OutMsg :=
  { params := { pTiny with lod := 1 }, tiles := visibleTiny, offset := (0, 0) }

/-- One wheel zoom-out step (`deltaY = 1 > 0`) at canvas position (0,0). -/
def wheelOut (p : FractalParams) : FractalParams :=
  handleWheelParams 1 0 0 p

/-- The grid cells `getVisibleTiles` walks, as grid indices (in units of
one tile) rather than pixel coordinates: the spec's reading of the tile
keys.  Same bounds as `getVisibleTiles`. -/
def visibleGridIndices (p : FractalParams) (ox oy : ℚ) : List (ℤ × ℤ) :=
  let tilesX : ℤ := Rat.ceil (p.width / TILE_SIZE) + 1
  let tilesY : ℤ := Rat.ceil (p.height / TILE_SIZE) + 1
  let startX : ℤ := Rat.floor (-ox / TILE_SIZE) - 1
  let startY : ℤ := Rat.floor (-oy / TILE_SIZE) - 1
  (List.range tilesY.toNat).flatMap (fun j =>
    (List.range tilesX.toNat).map (fun i =>
      (startX + (i : ℤ), startY + (j : ℤ))))

/-- Claim C1: for every viewport state and wheel event at canvas position
(mouseX, mouseY), the zoom-about-cursor update of `handleWheel` keeps the
plane point under the cursor fixed — `pixelToPlane` of the new params at
the cursor equals `pixelToPlane` of the old params there (exactly, in
rational arithmetic) — and the new zoom is the old zoom times the factor
0.9 (deltaY > 0) or 1.1 (otherwise). -/
theorem zoom_anchoring_cursor_invariant (p : FractalParams) (deltaY mouseX mouseY : ℚ)
    (hz : p.zoom ≠ 0) :
    pixelToPlane (handleWheelParams deltaY mouseX mouseY p) mouseX mouseY =
      pixelToPlane p mouseX mouseY ∧
    (handleWheelParams deltaY mouseX mouseY p).zoom = p.zoom * wheelZoomFactor deltaY := by
  have hf : wheelZoomFactor deltaY ≠ 0 := by
    unfold wheelZoomFactor
    split <;> norm_num
  refine ⟨?_, rfl⟩
  simp only [pixelToPlane, handleWheelParams, Complex.mk.injEq]
  constructor
  · field_simp
    ring
  · field_simp
    ring

/-- Claim C1 witness: the anchoring theorem applied to the initial
params at cursor (100, 50) with a zoom-out wheel event. -/
theorem zoom_anchoring_cursor_invariant_witness :
    pixelToPlane (handleWheelParams 1 100 50 params0) 100 50 =
      pixelToPlane params0 100 50 ∧
    (handleWheelParams 1 100 50 params0).zoom = params0.zoom * wheelZoomFactor 1 :=
  zoom_anchoring_cursor_invariant params0 1 100 50
    (of_decide_eq_false (by with_unfolding_all rfl))

/-- Claim C10: `getVisibleTiles` reads only `width`, `height` and the
pan offset; two states agreeing on those three produce identical
visible-tile key lists regardless of zoom, center, c, maxIterations,
coloring or lod. -/
theorem getVisibleTiles_viewport_independent (p q : FractalParams) (ox oy : ℚ)
    (hw : p.width = q.width) (hh : p.height = q.height) :
    getVisibleTiles p ox oy = getVisibleTiles q ox oy := by
  unfold getVisibleTiles
  rw [hw, hh]

/-- Claim C10 witness: `pTiny` and `pAlt` agree only on width and height
(zoom 250 vs 99999, different center, c, maxIterations, coloring, lod)
yet compute the same visible-tile keys. -/
theorem getVisibleTiles_viewport_independent_witness :
    getVisibleTiles pTiny 0 0 = getVisibleTiles pAlt 0 0 :=
  getVisibleTiles_viewport_independent pTiny pAlt 0 0 rfl rfl

/-- Claim C4: within one invocation of `requestNewTiles` on an open
connection, the coarse (lod 4) message is dispatched strictly before
the fine (lod 1) message: the coarse send is synchronous (delay 0)
while the fine send is scheduled 100 ms later. -/
theorem coarse_strictly_before_fine (st : AppState) (e1 e2 : ℚ × OutMsg)
    (h1 : e1 ∈ requestNewTilesTimed st) (h2 : e2 ∈ requestNewTilesTimed st)
    (hc : e1.2.params.lod = 4) (hfine : e2.2.params.lod = 1) :
    e1.1 < e2.1 := by
  unfold requestNewTilesTimed at h1 h2
  by_cases h : st.wsOpen
  · simp only [h, if_true, List.mem_cons, List.not_mem_nil, or_false] at h1 h2
    rcases h1 with rfl | rfl
    · rcases h2 with rfl | rfl
      · simp only at hfine
        norm_num at hfine
      · norm_num
    · simp only at hc
      norm_num at hc
  · simp [h] at h1

/-- Claim C4 witness: the two concrete timed events emitted from
`stTinyEmpty`, with the coarse one at delay 0 and the fine one at
delay 100. -/
theorem coarse_strictly_before_fine_witness :
    ((0 : ℚ), coarseTinyMsg).1 < ((100 : ℚ), fineTinyMsg).1 := by
  have hreq : requestNewTilesTimed stTinyEmpty = [(0, coarseTinyMsg), (100, fineTinyMsg)] := by
    with_unfolding_all rfl
  refine coarse_strictly_before_fine stTinyEmpty (0, coarseTinyMsg) (100, fineTinyMsg)
    ?_ ?_ rfl rfl
  · rw [hreq]
    exact List.mem_cons_self _ _
  · rw [hreq]
    exact List.mem_cons_of_mem _ (List.mem_cons_self _ _)

/-- Claim C2 counterexample: processing an accumulated drag offset of
(300, -50) from the initial state leaves a retained offset of (44, 78),
not (44, -50), and shifts `center.imag` (by -1 tile, i.e. +128/zoom =
64/125), contradicting the claimed 0-tile Y shift: `Math.floor(-50/128)`
is -1, not 0. -/
theorem pan_recenter_counterexample :
    (handleMouseMove 300 (-50) st0).1.offset = ((44 : ℚ), (78 : ℚ)) ∧
    (handleMouseMove 300 (-50) st0).1.offset ≠ ((44 : ℚ), (-50 : ℚ)) ∧
    (handleMouseMove 300 (-50) st0).1.params.center.imag = 64 / 125 ∧
    st0.params.center.imag = 0 ∧ st0.offset = (0, 0) :=
  ⟨by with_unfolding_all rfl,
   of_decide_eq_false (by with_unfolding_all rfl),
   by with_unfolding_all rfl,
   rfl, rfl⟩

/-- Claim C2 (amended): with tile size 128, processing an accumulated
drag offset of (300, -50) shifts the center by exactly
`Math.floor(300/128) = 2` whole tiles in X and `Math.floor(-50/128) = -1`
whole tiles in Y, and the retained sub-tile offset is
`(300 - 2*128, -50 - (-1)*128) = (44, 78)`. -/
theorem pan_recenter_floor_semantics (st : AppState)
    (hx : st.offset.1 = 0) (hy : st.offset.2 = 0) :
    (handleMouseMove 300 (-50) st).1.offset = ((44 : ℚ), (78 : ℚ)) ∧
    (handleMouseMove 300 (-50) st).1.params.center.real =
      st.params.center.real - ((2 : ℚ) * 128) / st.params.zoom ∧
    (handleMouseMove 300 (-50) st).1.params.center.imag =
      st.params.center.imag - ((-1 : ℚ) * 128) / st.params.zoom := by
  have h2 : Rat.floor ((0 + 300 : ℚ) / TILE_SIZE) = 2 := by with_unfolding_all rfl
  have hm1 : Rat.floor ((0 + -50 : ℚ) / TILE_SIZE) = -1 := by with_unfolding_all rfl
  unfold handleMouseMove
  rw [hx, hy]
  rw [if_pos (by left; rw [show |(0 : ℚ) + 300| = 300 by norm_num]; norm_num)]
  simp only [h2, hm1]
  refine ⟨?_, ?_, ?_⟩
  · simp only [TILE_SIZE]
    norm_num
  · simp only [TILE_SIZE]
    norm_num
  · simp only [TILE_SIZE]
    norm_num

/-- Claim C2 witness: the amended re-centering arithmetic evaluated at
the initial state. -/
theorem pan_recenter_floor_semantics_witness :
    (handleMouseMove 300 (-50) st0).1.offset = ((44 : ℚ), (78 : ℚ)) ∧
    (handleMouseMove 300 (-50) st0).1.params.center.real =
      st0.params.center.real - ((2 : ℚ) * 128) / st0.params.zoom ∧
    (handleMouseMove 300 (-50) st0).1.params.center.imag =
      st0.params.center.imag - ((-1 : ℚ) * 128) / st0.params.zoom :=
  pan_recenter_floor_semantics st0 rfl rfl

/-- Claim C3 counterexample: from a state in which every visible tile is
already cached at lod 1, `requestNewTiles` still sends two messages, and
the fine (lod 1) message carries the full unfiltered visible-tile list —
including the cached key "0,0" — so cached keys are not filtered from
the fine set and the scheduler does not stay idle. -/
theorem request_dedup_counterexample :
    (getVisibleTiles pTiny 0 0).all
      (fun t => recordHas stAllCached.tiles (t ++ ",1")) = true ∧
    (requestNewTiles stAllCached).length = 2 ∧
    ((requestNewTiles stAllCached).getD 1 default).tiles = getVisibleTiles pTiny 0 0 ∧
    ((requestNewTiles stAllCached).getD 1 default).tiles.contains "0,0" = true ∧
    ((requestNewTiles stAllCached).getD 0 default).tiles = [] :=
  ⟨by with_unfolding_all rfl,
   by with_unfolding_all rfl,
   by with_unfolding_all rfl,
   by with_unfolding_all rfl,
   by with_unfolding_all rfl⟩

/-- Claim C3 (amended): on an open connection `requestNewTiles` always
sends exactly two messages; only the coarse (lod 4) message is
deduplicated — each of its tile keys has no `",1"`-suffixed entry in the
cache — while the fine (lod 1) message carries the full visible list
unfiltered, even when there is nothing new to fetch. -/
theorem request_dedup_amended (st : AppState) (h : st.wsOpen = true) :
    (requestNewTiles st).length = 2 ∧
    (∀ t ∈ ((requestNewTiles st).getD 0 default).tiles,
      recordHas st.tiles (t ++ ",1") = false) ∧
    ((requestNewTiles st).getD 1 default).tiles =
      getVisibleTiles st.params st.offset.1 st.offset.2 := by
  unfold requestNewTiles requestNewTilesTimed
  simp only [h, if_true, List.map_cons, List.map_nil]
  refine ⟨rfl, ?_, rfl⟩
  intro t ht
  simp only [List.getD_cons_zero] at ht
  have hmem := List.mem_filter.mp ht
  simpa using hmem.2

/-- Claim C3 witness: the length component of the amended statement,
evaluated on the open tiny-viewport state. -/
theorem request_dedup_amended_witness :
    (requestNewTiles stTinyEmpty).length = 2 :=
  (request_dedup_amended stTinyEmpty rfl).1

/-- Claim C5 counterexample: changing `maxIterations` through
`handleInputChange` (from 200 to 500) leaves the non-empty tile cache
exactly as it was — no code path of the component ever clears it — so
the cache is not invalidated on a parameter change. -/
theorem param_invalidation_counterexample :
    (handleInputChange "maxIterations" 500 stCached).params.maxIterations = 500 ∧
    stCached.params.maxIterations = 200 ∧
    (handleInputChange "maxIterations" 500 stCached).tiles = stCached.tiles ∧
    stCached.tiles.isEmpty = false ∧
    recordGet (handleInputChange "maxIterations" 500 stCached).tiles "0,0,1" =
      some (dummyTile 0 0 1) :=
  ⟨by with_unfolding_all rfl,
   rfl,
   rfl,
   rfl,
   by with_unfolding_all rfl⟩

/-- Claim C5 (amended): no event handler clears the tile cache —
`handleInputChange` (any field, any value), `handleMouseMove` (pan) and
`handleWheel` (zoom) all leave every previously cached tile intact and
retrievable by its key. -/
theorem cache_never_cleared (name : String) (v dx dy d mx my : ℚ) (st : AppState) :
    (handleInputChange name v st).tiles = st.tiles ∧
    ((handleMouseMove dx dy st).1).tiles = st.tiles ∧
    ((handleWheel d mx my st).1).tiles = st.tiles := by
  refine ⟨rfl, ?_, rfl⟩
  unfold handleMouseMove
  dsimp only
  split <;> rfl

/-- Claim C6 counterexample: `handleWheel` stores `zoom * factor` with
no minimum clamp: nine zoom-out wheel events from the default zoom 250
drive the stored zoom to `250 * (9/10)^9 < 100`, below the only
configured minimum in the component (the zoom slider's `min={100}`). -/
theorem zoom_clamp_counterexample :
    params0.zoom = 250 ∧
    (wheelOut^[9] params0).zoom < 100 ∧
    0 < (wheelOut^[9] params0).zoom :=
  ⟨rfl,
   of_decide_eq_true (by with_unfolding_all rfl),
   of_decide_eq_true (by with_unfolding_all rfl)⟩

/-- Claim C6 (amended): no clamping happens at the point of mutation —
`handleWheel` stores exactly `zoom * factor` — so the zoom can fall
below any fixed positive minimum after enough zoom-out events; it does
stay strictly positive (in exact arithmetic) whenever it was positive. -/
theorem wheel_zoom_unclamped_but_positive (d mx my : ℚ) (p : FractalParams)
    (h : 0 < p.zoom) :
    (handleWheelParams d mx my p).zoom = p.zoom * wheelZoomFactor d ∧
    0 < (handleWheelParams d mx my p).zoom := by
  have hf : 0 < wheelZoomFactor d := by
    unfold wheelZoomFactor
    split <;> norm_num
  exact ⟨rfl, mul_pos h hf⟩

/-- Claim C6 witness: the unclamped multiplicative zoom update at the
initial params. -/
theorem wheel_zoom_unclamped_but_positive_witness :
    (handleWheelParams 1 0 0 params0).zoom = params0.zoom * wheelZoomFactor 1 ∧
    0 < (handleWheelParams 1 0 0 params0).zoom :=
  wheel_zoom_unclamped_but_positive 1 0 0 params0
    (of_decide_eq_true (by with_unfolding_all rfl))

/-- Claim C7 counterexample: the reconnect delay is the fixed 1000 ms,
but once the connection reopens the `onopen` handler's mount-time
`requestNewTiles` closure dispatches two requests (coarse then fine),
not exactly one — and they carry the mount-time params (zoom 250), not
the params in effect at drop time (zoom 500). -/
theorem reconnect_replay_counterexample :
    onClose.reconnectDelay = 1000 ∧
    (onOpen pTiny [] stDrop).length = 2 ∧
    (onOpen pTiny [] stDrop).length ≠ 1 ∧
    ((onOpen pTiny [] stDrop).getD 0 default).params.zoom = 250 ∧
    ((onOpen pTiny [] stDrop).getD 1 default).params.zoom = 250 ∧
    stDrop.params.zoom = 500 :=
  ⟨rfl,
   by with_unfolding_all rfl,
   of_decide_eq_false (by with_unfolding_all rfl),
   by with_unfolding_all rfl,
   by with_unfolding_all rfl,
   by with_unfolding_all rfl⟩

/-- Claim C7 (amended): after a transport close a reconnect attempt is
scheduled after the fixed 1-second delay, and once the connection
reopens the single stale `requestNewTiles` invocation dispatches two
messages — coarse (lod 4) then fine (lod 1) — carrying the params
captured when `connectWebSocket` was created (with only `lod`
overridden) and deduplicated against the tile cache captured then,
not the drop-time state; only the pan offset is read live. -/
theorem reconnect_replay_stale_closure (cp : FractalParams) (ct : TileRecord)
    (st : AppState) (h : st.wsOpen = true) :
    onClose.reconnectDelay = 1000 ∧
    (onOpen cp ct st).length = 2 ∧
    ((onOpen cp ct st).getD 0 default).params = { cp with lod := 4 } ∧
    ((onOpen cp ct st).getD 1 default).params = { cp with lod := 1 } ∧
    ((onOpen cp ct st).getD 0 default).offset = st.offset ∧
    ((onOpen cp ct st).getD 1 default).offset = st.offset ∧
    ((onOpen cp ct st).getD 0 default).tiles =
      (getVisibleTiles cp st.offset.1 st.offset.2).filter
        (fun t => !(recordHas ct (t ++ ",1"))) ∧
    ((onOpen cp ct st).getD 1 default).tiles =
      getVisibleTiles cp st.offset.1 st.offset.2 := by
  unfold onOpen requestNewTiles requestNewTilesTimed
  simp only [h, if_true, List.map_cons, List.map_nil]
  exact ⟨rfl, rfl, rfl, rfl, rfl, rfl, rfl, rfl⟩

/-- Claim C7 witness: the stale-closure replay evaluated with the
mount-time tiny params and empty cache against the drop-time state
whose zoom has moved to 500. -/
theorem reconnect_replay_stale_closure_witness :
    onClose.reconnectDelay = 1000 ∧
    (onOpen pTiny [] stDrop).length = 2 ∧
    ((onOpen pTiny [] stDrop).getD 0 default).params = { pTiny with lod := 4 } ∧
    ((onOpen pTiny [] stDrop).getD 1 default).params = { pTiny with lod := 1 } ∧
    ((onOpen pTiny [] stDrop).getD 0 default).offset = stDrop.offset ∧
    ((onOpen pTiny [] stDrop).getD 1 default).offset = stDrop.offset :=
  ⟨(reconnect_replay_stale_closure pTiny [] stDrop rfl).1,
   (reconnect_replay_stale_closure pTiny [] stDrop rfl).2.1,
   (reconnect_replay_stale_closure pTiny [] stDrop rfl).2.2.1,
   (reconnect_replay_stale_closure pTiny [] stDrop rfl).2.2.2.1,
   (reconnect_replay_stale_closure pTiny [] stDrop rfl).2.2.2.2.1,
   (reconnect_replay_stale_closure pTiny [] stDrop rfl).2.2.2.2.2.1⟩

/-- Claim C8 counterexample: there is no try/catch around
`JSON.parse(event.data)`, so a malformed payload makes the `onmessage`
handler throw (propagate an exception) instead of logging a diagnostic
and dropping the message. -/
theorem malformed_message_counterexample :
    onMessage InMsg.malformed st0 =
      Except.error "SyntaxError: Unexpected token in JSON" :=
  rfl

/-- Claim C8 (amended): whenever the `onmessage` handler completes
normally, the connection state, params and offset are untouched (only
the tile cache may gain an entry) — and a malformed payload never
completes normally, since `JSON.parse` throws out of the handler. -/
theorem inbound_ok_preserves_state (m : InMsg) (st st' : AppState)
    (h : onMessage m st = Except.ok st') :
    st'.wsOpen = st.wsOpen ∧ st'.params = st.params ∧ st'.offset = st.offset ∧
    m ≠ InMsg.malformed := by
  cases m with
  | malformed => simp [onMessage] at h
  | otherJson =>
      simp only [onMessage, Except.ok.injEq] at h
      subst h
      exact ⟨rfl, rfl, rfl, fun hc => InMsg.noConfusion hc⟩
  | tile x y lod image =>
      simp only [onMessage, Except.ok.injEq] at h
      subst h
      exact ⟨rfl, rfl, rfl, fun hc => InMsg.noConfusion hc⟩

/-- Claim C8 witness: the isolation theorem applied to a parsed
non-tile message on the initial state. -/
theorem inbound_ok_preserves_state_witness :
    st0.wsOpen = st0.wsOpen ∧ st0.params = st0.params ∧ st0.offset = st0.offset ∧
    InMsg.otherJson ≠ InMsg.malformed :=
  inbound_ok_preserves_state InMsg.otherJson st0 st0 rfl

/-- Claim C9 counterexample: the grid cell (-1, -1) is visible from the
tiny viewport, so the claimed format would put "-1,-1" into the coarse
request; instead the message carries "-128,-128" — the tile's pixel
coordinates (`x * TILE_SIZE`), not its grid indices. -/
theorem outbound_key_format_counterexample :
    ((requestNewTiles stTinyEmpty).getD 0 default).tiles.contains "-128,-128" = true ∧
    ((requestNewTiles stTinyEmpty).getD 0 default).tiles.contains "-1,-1" = false ∧
    tileKey (-1) (-1) = "-1,-1" ∧
    ((-1 : ℤ), (-1 : ℤ)) ∈ visibleGridIndices pTiny 0 0 :=
  ⟨by with_unfolding_all rfl,
   by with_unfolding_all rfl,
   by with_unfolding_all rfl,
   of_decide_eq_true (by with_unfolding_all rfl)⟩

/-- Claim C9 (amended): every element of the `tiles` array of every
outbound request message is the string `"<gridX*128>,<gridY*128>"` for
some visible grid cell (gridX, gridY) — the pixel coordinates of the
tile's top-left corner, 128 times the grid indices. -/
theorem outbound_tile_keys_format (st : AppState) (m : OutMsg) (s : String)
    (hm : m ∈ requestNewTiles st) (hs : s ∈ m.tiles) :
    ∃ gx gy : ℤ, s = tileKey (gx * 128) (gy * 128) ∧
      (gx, gy) ∈ visibleGridIndices st.params st.offset.1 st.offset.2 := by
  have hvis : s ∈ getVisibleTiles st.params st.offset.1 st.offset.2 := by
    unfold requestNewTiles requestNewTilesTimed at hm
    by_cases h : st.wsOpen
    · simp only [h, if_true, List.map_cons, List.map_nil, List.mem_cons,
        List.not_mem_nil, or_false] at hm
      rcases hm with rfl | rfl
      · exact (List.mem_filter.mp hs).1
      · exact hs
    · simp [h] at hm
  unfold getVisibleTiles at hvis
  simp only [List.mem_flatMap, List.mem_map, List.mem_range] at hvis
  obtain ⟨j, hj, i, hi, hkey⟩ := hvis
  refine ⟨_, _, hkey.symm, ?_⟩
  unfold visibleGridIndices
  simp only [List.mem_flatMap, List.mem_map, List.mem_range]
  exact ⟨j, hj, i, hi, rfl⟩

/-- Claim C9 witness: the pixel-coordinate key format exhibited on the
key "-128,-128" of the fine message sent from the tiny viewport. -/
theorem outbound_tile_keys_format_witness :
    ∃ gx gy : ℤ, "-128,-128" = tileKey (gx * 128) (gy * 128) ∧
      (gx, gy) ∈ visibleGridIndices stTinyEmpty.params stTinyEmpty.offset.1
        stTinyEmpty.offset.2 := by
  have hreq : requestNewTiles stTinyEmpty = [coarseTinyMsg, fineTinyMsg] := by
    with_unfolding_all rfl
  refine outbound_tile_keys_format stTinyEmpty fineTinyMsg "-128,-128" ?_ ?_
  · rw [hreq]
    exact List.mem_cons_of_mem _ (List.mem_cons_self _ _)
  · show "-128,-128" ∈ visibleTiny
    exact List.mem_cons_self _ _

end Fractale
